import Mathlib

/-!
# Verification of the todo-list client's data layer and list logic

Shallow embedding of the repository's data model and operations:

* `src/services/api.js` — the `TodoService` class: `getAllTodos`, `getTodoById`,
  `createTodo`, `updateTodo`, `deleteTodo`, `getLocalTodos`, `searchTodos`.
  Remote HTTP calls are external I/O; each service function takes the outcome of
  its remote call as an explicit `Except String _` argument.  The browser-local
  store (localforage) is modelled as an association list from string keys to
  stored objects, threaded explicitly.
* `src/components/TodoList.jsx` — the merged fetch (`queryFn`), the
  search/status filter (`filteredTodos`) and the pagination arithmetic
  (`totalPages`, `startIndex`, `endIndex`, `currentTodos`).

JavaScript string operations used by the code (`trim`, `toLowerCase`,
`includes`, `startsWith`) are embedded as executable functions on the
character lists underlying `String`, matching their ECMAScript behaviour on
the sequences of characters involved.
-/

namespace TodoApp

/-- A task object.  Remote tasks come from the JSONPlaceholder `/todos`
endpoint with fields `id`, `title`, `completed`, `userId`; locally created
tasks additionally carry `isLocal: true`.  An absent `isLocal` field
(JavaScript `undefined`, falsy) is modelled as `false`. -/
structure Todo where
  id : Nat
  title : String
  completed : Bool
  userId : Nat
  isLocal : Bool
deriving Repr, DecidableEq

/-- A partial task object, as passed to `createTodo`/`updateTodo`
(`todoData`): a JavaScript object in which any of the five task fields may be
absent (`none` = the field is not an own property / is `undefined`). -/
structure TodoData where
  id : Option Nat := none
  title : Option String := none
  completed : Option Bool := none
  userId : Option Nat := none
  isLocal : Option Bool := none
deriving Repr, DecidableEq

/-- View a full task as the corresponding (total) object. -/
def Todo.toData (t : Todo) : TodoData :=
  { id := some t.id, title := some t.title, completed := some t.completed,
    userId := some t.userId, isLocal := some t.isLocal }

/-! ## JavaScript string primitives -/

/-- JavaScript `String.prototype.toLowerCase`, on the character list. -/
def jsToLower (s : String) : String := ⟨s.data.map Char.toLower⟩

/-- JavaScript `String.prototype.trim`: strip leading and trailing
whitespace. -/
def jsTrim (s : String) : String :=
  ⟨((s.data.dropWhile Char.isWhitespace).reverse.dropWhile Char.isWhitespace).reverse⟩

/-- Containment of `sub` as a contiguous run inside a character list. -/
def containsSeq (sub : List Char) : List Char → Bool
  | [] => sub.isPrefixOf ([] : List Char)
  | c :: rest => sub.isPrefixOf (c :: rest) || containsSeq sub rest

/-- JavaScript `s.includes(sub)`: substring containment. -/
def jsIncludes (s sub : String) : Bool := containsSeq sub.data s.data

/-- JavaScript `s.startsWith(p)`. -/
def jsStartsWith (s p : String) : Bool := p.data.isPrefixOf s.data

/-! ## Filtering and pagination (`TodoList.jsx`) -/

/-- `TodoList.jsx` lines 75–93: the `filteredTodos` memo.  The search filter
runs when `searchQuery.trim()` is truthy (a non-empty string) and keeps todos
whose lowercased title includes the lowercased query; the status filter then
keeps completed todos when `filterStatus === 'completed'`, uncompleted ones
when `filterStatus === 'pending'`, and everything otherwise. -/
def filteredTodos (todos : List Todo) (searchQuery filterStatus : String) : List Todo :=
  let filtered := todos
  let filtered :=
    if jsTrim searchQuery ≠ "" then
      filtered.filter (fun todo => jsIncludes (jsToLower todo.title) (jsToLower searchQuery))
    else filtered
  let filtered :=
    if filterStatus = "completed" then filtered.filter (fun todo => todo.completed)
    else if filterStatus = "pending" then filtered.filter (fun todo => !todo.completed)
    else filtered
  filtered

/-- `const [todosPerPage] = useState(10)`. -/
def todosPerPage : Nat := 10

/-- `Math.ceil(totalTodos / todosPerPage)` for a natural count. -/
def totalPages (filtered : List Todo) : Nat :=
  (filtered.length + todosPerPage - 1) / todosPerPage

/-- `(currentPage - 1) * todosPerPage`. -/
def startIndex (currentPage : Nat) : Nat := (currentPage - 1) * todosPerPage

/-- `startIndex + todosPerPage`. -/
def endIndex (currentPage : Nat) : Nat := startIndex currentPage + todosPerPage

/-- `filteredTodos.slice(startIndex, endIndex)`. -/
def currentTodos (filtered : List Todo) (currentPage : Nat) : List Todo :=
  (filtered.drop (startIndex currentPage)).take (endIndex currentPage - startIndex currentPage)

/-- The displayed slices for pages `1 … totalPages`, in order. -/
def allPages (filtered : List Todo) : List (List Todo) :=
  (List.range (totalPages filtered)).map (fun i => currentTodos filtered (i + 1))

/-! ### Pagination lemmas -/

lemma join_take_drop_chunks {α : Type} (k : Nat) :
    ∀ (n : Nat) (l : List α), l.length ≤ n * k →
      ((List.range n).map (fun i => (l.drop (i * k)).take k)).flatten = l := by
  intro n
  induction n with
  | zero =>
      intro l hl
      simp only [Nat.zero_mul, Nat.le_zero, List.length_eq_zero] at hl
      simp [hl]
  | succ n ih =>
      intro l hl
      rw [List.range_succ_eq_map, List.map_cons, List.flatten_cons, List.map_map]
      have hfun : ((fun i => (l.drop (i * k)).take k) ∘ Nat.succ)
          = fun i => (((l.drop k).drop (i * k)).take k) := by
        funext i
        simp only [Function.comp_apply, List.drop_drop]
        have hik : Nat.succ i * k = k + i * k := by
          rw [Nat.succ_mul, Nat.add_comm]
        rw [hik]
      rw [hfun, ih (l.drop k) (by
        have hmul : (n + 1) * k = n * k + k := by ring
        simp only [List.length_drop]
        omega)]
      simp [List.take_append_drop]

lemma length_le_totalPages_mul (l : List Todo) :
    l.length ≤ totalPages l * todosPerPage := by
  simp only [totalPages, todosPerPage]
  omega

/-- C1: for every merged collection, search string, status filter and page
number `p` with `1 ≤ p ≤ totalPages`: the page count is the ceiling of the
filtered count divided by the page size ten (stated as: it is the least `m`
with `count ≤ m * 10`), the displayed slice consists exactly of the filtered
elements at indices `(p−1)*10` up to (exclusive) `p*10`, and concatenating
the slices of pages `1 … totalPages` reproduces the filtered collection in
order. -/
theorem C1_pagination_correct (todos : List Todo) (searchQuery filterStatus : String)
    (p : Nat) (hp1 : 1 ≤ p) (hp2 : p ≤ totalPages (filteredTodos todos searchQuery filterStatus)) :
    (filteredTodos todos searchQuery filterStatus).length
        ≤ totalPages (filteredTodos todos searchQuery filterStatus) * todosPerPage
    ∧ (∀ m, (filteredTodos todos searchQuery filterStatus).length ≤ m * todosPerPage →
        totalPages (filteredTodos todos searchQuery filterStatus) ≤ m)
    ∧ (∀ i, (currentTodos (filteredTodos todos searchQuery filterStatus) p)[i]?
        = if (p - 1) * todosPerPage + i < p * todosPerPage then
            (filteredTodos todos searchQuery filterStatus)[(p - 1) * todosPerPage + i]?
          else none)
    ∧ (allPages (filteredTodos todos searchQuery filterStatus)).flatten
        = filteredTodos todos searchQuery filterStatus := by
  set L := filteredTodos todos searchQuery filterStatus with hL
  refine ⟨length_le_totalPages_mul L, ?_, ?_, ?_⟩
  · intro m hm
    simp only [totalPages, todosPerPage] at *
    omega
  · intro i
    simp only [currentTodos, startIndex, endIndex, todosPerPage,
      List.getElem?_take, List.getElem?_drop]
    have h10 : (p - 1) * 10 + 10 = p * 10 := by
      have := Nat.succ_mul (p - 1) 10
      omega
    by_cases hi : i < 10
    · rw [if_pos (by omega), if_pos (by omega)]
    · rw [if_neg (by omega), if_neg (by omega)]
  · have hshape : allPages L
        = (List.range (totalPages L)).map (fun i => (L.drop (i * todosPerPage)).take todosPerPage) := by
      unfold allPages
      refine List.map_congr_left (fun i _ => ?_)
      simp [currentTodos, startIndex, endIndex]
    rw [hshape]
    exact join_take_drop_chunks todosPerPage (totalPages L) L (length_le_totalPages_mul L)

/-! ## The browser-local store (localforage)

`localforage` is configured with store name `todos`; the app stores each task
under the string key `` `todo-${id}` ``.  The store is modelled as an
association list of key/value pairs; `setItem` replaces the value under an
existing key and otherwise inserts, `getItem` returns the value under a key
(`none` when absent), `removeItem` deletes the entry, and `iterate`
enumerates all entries. -/

/-- A snapshot of the localforage store. -/
abbrev LocalStore := List (String × Todo)

/-- The key the app uses for a task: `` `todo-${id}` ``. -/
def todoKey (id : Nat) : String := "todo-" ++ toString id

/-- `localforage.setItem(key, value)`. -/
def setItem (store : LocalStore) (key : String) (value : Todo) : LocalStore :=
  if store.any (fun p => p.1 == key) then
    store.map (fun p => if p.1 == key then (key, value) else p)
  else store ++ [(key, value)]

/-- `localforage.getItem(key)` (`null` for a missing key becomes `none`). -/
def getItem (store : LocalStore) (key : String) : Option Todo :=
  (store.find? (fun p => p.1 == key)).map Prod.snd

/-- `localforage.removeItem(key)`. -/
def removeItem (store : LocalStore) (key : String) : LocalStore :=
  store.filter (fun p => !(p.1 == key))

/-! ## The data access layer (`TodoService`, `src/services/api.js`)

Each remote HTTP call is external I/O: its outcome enters the corresponding
service function as an argument, either as a plain `Except String _` result
(for calls without a request body) or as a function from the request body the
code sends to the response (`post`/`put`).  The `Except.error` branch of an
outcome is an axios rejection; the service functions wrap it in the domain
error message thrown by the code.  Service functions that write return the
resulting store snapshot alongside the result; when they throw, the store is
returned unchanged. -/

/-- `TodoService.getAllTodos` (api.js lines 19–27). -/
def getAllTodos (remote : Except String (List Todo)) : Except String (List Todo) :=
  match remote with
  | Except.ok ts => Except.ok ts
  | Except.error _ => Except.error "Failed to fetch todos"

/-- `TodoService.getTodoById` (api.js lines 30–38): a pure remote GET of
`/todos/${id}`; the local store is never consulted. -/
def getTodoById (remote : Except String Todo) (id : Nat) : Except String Todo :=
  match remote with
  | Except.ok t => Except.ok t
  | Except.error _ => Except.error ("Failed to fetch todo with ID " ++ toString id)

/-- The object `{...response.data, id: Date.now(), isLocal: true}` built by
`createTodo`: the response fields, with the identifier overridden by the
timestamp and the local-origin flag set.  A field absent from the response
(JavaScript `undefined`) is modelled by its falsy default; every response the
app actually receives carries all four fields. -/
def mkLocalTodo (respData : TodoData) (now : Nat) : Todo :=
  { id := now,
    title := respData.title.getD "",
    completed := respData.completed.getD false,
    userId := respData.userId.getD 0,
    isLocal := true }

/-- `TodoService.createTodo` (api.js lines 41–63): POST
`{title: todoData.title, completed: false, userId: 1}`; on success build the
local todo from the response with `id := Date.now()` and `isLocal := true`,
store it under `todo-<id>` and return it; on failure throw
`'Failed to create todo'` (nothing is stored). -/
def createTodo (todoData : TodoData) (post : TodoData → Except String TodoData)
    (now : Nat) (store : LocalStore) : Except String Todo × LocalStore :=
  match post { title := todoData.title, completed := some false, userId := some 1 } with
  | Except.error _ => (Except.error "Failed to create todo", store)
  | Except.ok respData =>
      let localTodo := mkLocalTodo respData now
      (Except.ok localTodo, setItem store (todoKey localTodo.id) localTodo)

/-- The JavaScript spread `{ ...localTodo, ...todoData }`: every field the
payload carries overrides the stored one. -/
def mergeTodo (localTodo : Todo) (todoData : TodoData) : Todo :=
  { id := todoData.id.getD localTodo.id,
    title := todoData.title.getD localTodo.title,
    completed := todoData.completed.getD localTodo.completed,
    userId := todoData.userId.getD localTodo.userId,
    isLocal := todoData.isLocal.getD localTodo.isLocal }

/-- `TodoService.updateTodo` (api.js lines 66–83): PUT `todoData`; on success,
if a local entry exists, write and return the spread-merge, else return the
response; on failure throw (the store is untouched). -/
def updateTodo (id : Nat) (todoData : TodoData) (put : TodoData → Except String TodoData)
    (store : LocalStore) : Except String TodoData × LocalStore :=
  match put todoData with
  | Except.error _ =>
      (Except.error ("Failed to update todo with ID " ++ toString id), store)
  | Except.ok respData =>
      match getItem store (todoKey id) with
      | some localTodo =>
          let updatedTodo := mergeTodo localTodo todoData
          (Except.ok updatedTodo.toData, setItem store (todoKey id) updatedTodo)
      | none => (Except.ok respData, store)

/-- `TodoService.deleteTodo` (api.js lines 86–98): DELETE first; only on its
success remove the local entry and return `{success: true}`; on failure throw
(the local entry survives). -/
def deleteTodo (id : Nat) (deleteResp : Except String Unit) (store : LocalStore) :
    Except String Bool × LocalStore :=
  match deleteResp with
  | Except.error _ =>
      (Except.error ("Failed to delete todo with ID " ++ toString id), store)
  | Except.ok _ => (Except.ok true, removeItem store (todoKey id))

/-- `TodoService.getLocalTodos` (api.js lines 101–114): iterate the store and
collect values under keys starting with `todo-`; any iteration error is
swallowed and an empty list returned. -/
def getLocalTodos (iterateResp : Except String LocalStore) : List Todo :=
  match iterateResp with
  | Except.ok store => (store.filter (fun p => jsStartsWith p.1 "todo-")).map Prod.snd
  | Except.error _ => []

/-- `TodoService.searchTodos` (api.js lines 117–131): combine both sources and
filter by case-insensitive title containment; any error is wrapped into
`'Failed to search todos'`. -/
def searchTodos (query : String) (remote : Except String (List Todo))
    (iterateResp : Except String LocalStore) : Except String (List Todo) :=
  match getAllTodos remote with
  | Except.error _ => Except.error "Failed to search todos"
  | Except.ok allTodos =>
      let combinedTodos := allTodos ++ getLocalTodos iterateResp
      Except.ok (combinedTodos.filter (fun todo =>
        jsIncludes (jsToLower todo.title) (jsToLower query)))

/-- The `queryFn` of `TodoList.jsx` (lines 30–36): `Promise.all` of
`getAllTodos` and `getLocalTodos`, concatenated remote-first.  The aggregate
rejects exactly when `getAllTodos` rejects (`getLocalTodos` never rejects). -/
def fetchAll (remote : Except String (List Todo))
    (iterateResp : Except String LocalStore) : Except String (List Todo) :=
  match getAllTodos remote with
  | Except.error e => Except.error e
  | Except.ok apiTodos => Except.ok (apiTodos ++ getLocalTodos iterateResp)

/-! ## The remote API

Modelled from the spec: the remote data source is "an external REST API
returning a fixed-shape task list; read-mostly, simulated writes (server does
not truly persist)".  Reads serve a fixed list; a write responds by echoing
the request body with the path/server identifier, leaving the stored list
unchanged. -/

/-- Modelled from the spec: the remote server's fixed task list. -/
structure RemoteState where
  todos : List Todo
deriving Repr, DecidableEq

/-- Modelled from the spec: GET `/todos/${id}` returns the stored task with
that identifier, or a 404 rejection. -/
def remoteGetById (r : RemoteState) (id : Nat) : Except String Todo :=
  match r.todos.find? (fun t => t.id == id) with
  | some t => Except.ok t
  | none => Except.error "Request failed with status code 404"

/-- Modelled from the spec: POST `/todos` echoes the request body with a
server-assigned identifier; the stored list is unchanged (simulated write). -/
def remotePostResp (body : TodoData) (serverId : Nat) : Except String TodoData :=
  Except.ok { body with id := some serverId }

/-- Modelled from the spec: PUT `/todos/${id}` echoes the request body with
the path identifier; the stored list is unchanged (simulated write). -/
def remotePutResp (id : Nat) (body : TodoData) : Except String TodoData :=
  Except.ok { body with id := some id }

/-- `createTodo` run against the spec-modelled remote. -/
def createTodoJP (todoData : TodoData) (serverId now : Nat) (store : LocalStore) :
    Except String Todo × LocalStore :=
  createTodo todoData (fun body => remotePostResp body serverId) now store

/-- Sample collection with 23 tasks, as in the spec's example. -/
def sampleTodos : List Todo :=
  (List.range 23).map (fun i =>
    { id := i + 1, title := "task", completed := false, userId := 1, isLocal := false })

/-- Witness for C1 at the spec's example: 23 filtered items give 3 pages and
page 3 holds 3 items. -/
theorem C1_pagination_correct_witness :
    (1 ≤ 3 ∧ 3 ≤ totalPages (filteredTodos sampleTodos "" "all")
      ∧ (currentTodos (filteredTodos sampleTodos "" "all") 3).length = 3)
    ∧ ((filteredTodos sampleTodos "" "all").length
        ≤ totalPages (filteredTodos sampleTodos "" "all") * todosPerPage
    ∧ (∀ m, (filteredTodos sampleTodos "" "all").length ≤ m * todosPerPage →
        totalPages (filteredTodos sampleTodos "" "all") ≤ m)
    ∧ (∀ i, (currentTodos (filteredTodos sampleTodos "" "all") 3)[i]?
        = if (3 - 1) * todosPerPage + i < 3 * todosPerPage then
            (filteredTodos sampleTodos "" "all")[(3 - 1) * todosPerPage + i]?
          else none)
    ∧ (allPages (filteredTodos sampleTodos "" "all")).flatten
        = filteredTodos sampleTodos "" "all") :=
  ⟨⟨by decide, by decide, by decide⟩,
    C1_pagination_correct sampleTodos "" "all" 3 (by decide) (by decide)⟩

/-! ## Search filtering (C2) -/

/-- A task whose title contains no whitespace. -/
def tAbc : Todo := { id := 1, title := "abc", completed := false, userId := 1, isLocal := false }

/-- C2 as stated is false: the search string `" "` is non-empty, but because
its trim is empty the search filter is skipped, so `tAbc` stays in the
filtered result although its title does not contain `" "`. -/
theorem C2_counterexample :
    (" " : String) ≠ ""
    ∧ tAbc ∈ filteredTodos [tAbc] " " "all"
    ∧ jsIncludes (jsToLower tAbc.title) (jsToLower " ") = false := by
  refine ⟨by decide, by decide, by decide⟩

/-- C2 (amended): for every search string whose whitespace-trim is non-empty,
every item of the view layer's filtered result contains the search string
case-insensitively in its title; the api-level `searchTodos` result satisfies
the same containment. -/
theorem C2_search_filter_sound (todos : List Todo) (searchQuery filterStatus : String)
    (hq : jsTrim searchQuery ≠ "") :
    (∀ t ∈ filteredTodos todos searchQuery filterStatus,
        jsIncludes (jsToLower t.title) (jsToLower searchQuery) = true)
    ∧ (∀ remote iterateResp res, searchTodos searchQuery remote iterateResp = Except.ok res →
        ∀ t ∈ res, jsIncludes (jsToLower t.title) (jsToLower searchQuery) = true) := by
  constructor
  · intro t ht
    simp only [filteredTodos] at ht
    rw [if_pos hq] at ht
    have hsearch : t ∈ todos.filter
        (fun todo => jsIncludes (jsToLower todo.title) (jsToLower searchQuery)) := by
      by_cases h1 : filterStatus = "completed"
      · rw [if_pos h1] at ht
        exact (List.mem_filter.mp ht).1
      · rw [if_neg h1] at ht
        by_cases h2 : filterStatus = "pending"
        · rw [if_pos h2] at ht
          exact (List.mem_filter.mp ht).1
        · rw [if_neg h2] at ht
          exact ht
    exact (List.mem_filter.mp hsearch).2
  · intro remote iterateResp res hres t ht
    cases remote with
    | error e => simp [searchTodos, getAllTodos] at hres
    | ok ts =>
        simp only [searchTodos, getAllTodos] at hres
        cases hres
        exact (List.mem_filter.mp ht).2

/-- A task whose title contains the letter a. -/
def tApple : Todo := { id := 2, title := "apple pie", completed := false, userId := 1, isLocal := false }

/-- Witness for the amended C2 at the query `"A"` on a one-task collection. -/
theorem C2_search_filter_sound_witness :
    jsTrim "A" ≠ ""
    ∧ ((∀ t ∈ filteredTodos [tApple] "A" "all",
          jsIncludes (jsToLower t.title) (jsToLower "A") = true)
      ∧ (∀ remote iterateResp res, searchTodos "A" remote iterateResp = Except.ok res →
          ∀ t ∈ res, jsIncludes (jsToLower t.title) (jsToLower "A") = true)) :=
  ⟨by decide, C2_search_filter_sound [tApple] "A" "all" (by decide)⟩

/-! ## Create (C3) -/

/-- A create payload as the UI sends it. -/
def dMilk : TodoData := { title := some "buy milk" }

/-- C3 as stated is false: when the remote POST rejects, `createTodo` throws
`'Failed to create todo'` and nothing is written to local storage — the local
task is not produced regardless of the remote call's outcome. -/
theorem C3_counterexample :
    createTodo dMilk (fun _ => Except.error "Network Error") 1001 []
      = (Except.error "Failed to create todo", ([] : LocalStore)) := rfl

/-- C3 (amended): when the remote POST succeeds, `createTodo` builds the local
task from the response with the generated identifier `now` and the
local-origin flag set (so the response's `id` is overridden and the remote
result is not the source of truth), writes it under `todo-<now>`, and returns
it; when the POST fails, `createTodo` fails and local storage is unchanged. -/
theorem C3_create_error_handling (todoData respData : TodoData) (e : String)
    (now : Nat) (store : LocalStore) :
    createTodo todoData (fun _ => Except.ok respData) now store
      = (Except.ok (mkLocalTodo respData now),
         setItem store (todoKey now) (mkLocalTodo respData now))
    ∧ (mkLocalTodo respData now).id = now
    ∧ (mkLocalTodo respData now).isLocal = true
    ∧ createTodo todoData (fun _ => Except.error e) now store
      = (Except.error "Failed to create todo", store) :=
  ⟨rfl, rfl, rfl, rfl⟩

/-! ## Fetch-all error handling (C4) -/

/-- A remote sample task. -/
def tRemote1 : Todo :=
  { id := 1, title := "delectus aut autem", completed := false, userId := 1, isLocal := false }

/-- C4 as stated is false: a failing local read does not fail fetch-all.
`getLocalTodos` swallows its error and returns `[]`, so the aggregate
succeeds with the remote tasks alone. -/
theorem C4_counterexample :
    fetchAll (Except.ok [tRemote1]) (Except.error "storage failure")
      = Except.ok [tRemote1] := rfl

/-- C4 (amended): a failing remote read fails fetch-all with the single
domain error `'Failed to fetch todos'` wrapping the I/O failure; a failing
local read is swallowed by `getLocalTodos` (which returns `[]`), and
fetch-all succeeds with the remote list alone. -/
theorem C4_fetch_error_handling (e eLocal : String)
    (iterateResp : Except String LocalStore) (remoteTodos : List Todo) :
    fetchAll (Except.error e) iterateResp = Except.error "Failed to fetch todos"
    ∧ getLocalTodos (Except.error eLocal) = []
    ∧ fetchAll (Except.ok remoteTodos) (Except.error eLocal) = Except.ok remoteTodos := by
  refine ⟨rfl, rfl, ?_⟩
  simp [fetchAll, getAllTodos, getLocalTodos]

/-! ## Fetch-all concatenation (C7) -/

/-- C7: when both reads resolve, fetch-all returns exactly the remote list
followed by the local list: element counts add up (no deduplication), indices
below the remote length read from the remote list, and indices past it read
from the local list — both sources' internal orders are preserved. -/
theorem C7_fetchAll_concat (remoteTodos : List Todo)
    (iterateResp : Except String LocalStore) :
    fetchAll (Except.ok remoteTodos) iterateResp
      = Except.ok (remoteTodos ++ getLocalTodos iterateResp)
    ∧ (∀ t : Todo, (remoteTodos ++ getLocalTodos iterateResp).count t
        = remoteTodos.count t + (getLocalTodos iterateResp).count t)
    ∧ (∀ i, (remoteTodos ++ getLocalTodos iterateResp)[i]?
        = if i < remoteTodos.length then remoteTodos[i]?
          else (getLocalTodos iterateResp)[i - remoteTodos.length]?) := by
  refine ⟨rfl, ?_, ?_⟩
  · intro t
    exact List.count_append t remoteTodos (getLocalTodos iterateResp)
  · intro i
    by_cases hi : i < remoteTodos.length
    · rw [if_pos hi, List.getElem?_append_left hi]
    · rw [if_neg hi, List.getElem?_append_right (by omega)]

/-! ## Delete (C5) -/

lemma getItem_removeItem (store : LocalStore) (key : String) :
    getItem (removeItem store key) key = none := by
  have h : (removeItem store key).find? (fun p => p.1 == key) = none := by
    rw [List.find?_eq_none]
    intro p hp
    have hkeep := (List.mem_filter.mp hp).2
    simp only [Bool.not_eq_true'] at hkeep
    simp [hkeep]
  simp [getItem, h]

/-- A locally created task, stored under its key. -/
def tLoc : Todo :=
  { id := 1001, title := "local task", completed := false, userId := 1, isLocal := true }

/-- C5 as stated is false: the remote DELETE runs first, and when it rejects
the thrown error skips the local removal — the local entry survives although
it was present. -/
theorem C5_counterexample :
    deleteTodo 1001 (Except.error "Network Error") [(todoKey 1001, tLoc)]
      = (Except.error "Failed to delete todo with ID 1001", [(todoKey 1001, tLoc)])
    ∧ getItem [(todoKey 1001, tLoc)] (todoKey 1001) = some tLoc := ⟨rfl, rfl⟩

/-- C5 (amended): delete always attempts the remote deletion first; when it
succeeds the local entry under the identifier's key (if any) is removed, and
a locally created task is absent from every subsequent fetch-all result;
when the remote attempt fails, delete fails and local storage is unchanged,
the failure wrapped in a domain error naming the identifier. -/
theorem C5_delete_behavior (id : Nat) (t : Todo) (store : LocalStore)
    (remoteTodos : List Todo)
    (hwf : ∀ p ∈ store, p.1 = todoKey p.2.id) (hid : t.id = id)
    (hrt : t ∉ remoteTodos) :
    deleteTodo id (Except.ok ()) store = (Except.ok true, removeItem store (todoKey id))
    ∧ getItem (removeItem store (todoKey id)) (todoKey id) = none
    ∧ (∀ e, deleteTodo id (Except.error e) store
        = (Except.error ("Failed to delete todo with ID " ++ toString id), store))
    ∧ (∀ res, fetchAll (Except.ok remoteTodos) (Except.ok (removeItem store (todoKey id)))
          = Except.ok res → t ∉ res) := by
  refine ⟨rfl, getItem_removeItem store (todoKey id), fun e => rfl, ?_⟩
  intro res hres hmem
  simp only [fetchAll, getAllTodos] at hres
  cases hres
  rcases List.mem_append.mp hmem with hL | hR
  · exact hrt hL
  · simp only [getLocalTodos] at hR
    obtain ⟨p, hp, hpt⟩ := List.mem_map.mp hR
    have hpstore := (List.mem_filter.mp hp).1
    have hpkeep := (List.mem_filter.mp hpstore).2
    have hpmem := (List.mem_filter.mp hpstore).1
    have hpk : p.1 = todoKey id := by rw [hwf p hpmem, hpt, hid]
    simp [hpk] at hpkeep

/-- Witness for the amended C5: a locally created task in a one-entry store,
alongside a one-task remote list. -/
theorem C5_delete_behavior_witness :
    ((∀ p ∈ [(todoKey 1001, tLoc)], p.1 = todoKey p.2.id)
      ∧ tLoc.id = 1001 ∧ tLoc ∉ [tRemote1])
    ∧ (deleteTodo 1001 (Except.ok ()) [(todoKey 1001, tLoc)]
        = (Except.ok true, removeItem [(todoKey 1001, tLoc)] (todoKey 1001))
    ∧ getItem (removeItem [(todoKey 1001, tLoc)] (todoKey 1001)) (todoKey 1001) = none
    ∧ (∀ e, deleteTodo 1001 (Except.error e) [(todoKey 1001, tLoc)]
        = (Except.error ("Failed to delete todo with ID " ++ toString 1001),
           [(todoKey 1001, tLoc)]))
    ∧ (∀ res, fetchAll (Except.ok [tRemote1])
          (Except.ok (removeItem [(todoKey 1001, tLoc)] (todoKey 1001)))
          = Except.ok res → tLoc ∉ res)) :=
  ⟨⟨by decide, rfl, by decide⟩,
    C5_delete_behavior 1001 tLoc [(todoKey 1001, tLoc)] [tRemote1]
      (by decide) rfl (by decide)⟩

/-! ## Update (C6) -/

/-- A payload carrying an explicit `isLocal: false` field. -/
def dNotLocal : TodoData := { isLocal := some false }

/-- C6 as stated is false: the spread `{...localTodo, ...todoData}` lets a
payload field override the stored one, including the local-origin flag — a
payload with `isLocal: false` flips the stored task's flag instead of
preserving it. -/
theorem C6_counterexample :
    updateTodo 1001 dNotLocal (fun body => remotePutResp 1001 body)
        [(todoKey 1001, tLoc)]
      = (Except.ok (Todo.toData
          { id := 1001, title := "local task", completed := false, userId := 1,
            isLocal := false }),
         [(todoKey 1001,
           { id := 1001, title := "local task", completed := false, userId := 1,
             isLocal := false })])
    ∧ tLoc.isLocal = true := ⟨rfl, rfl⟩

/-- C6 (amended): when the remote PUT succeeds and a local entry exists,
update writes the spread-merge of the stored fields with the payload's fields
(payload fields take precedence, so the local-origin flag is preserved
exactly when the payload does not supply one) and returns the merged task;
when no local entry exists it returns the server's response; when the PUT
fails, update fails and local storage is unchanged. -/
theorem C6_update_behavior (id : Nat) (todoData : TodoData) (store : LocalStore)
    (t : Todo) (put : TodoData → Except String TodoData) (respData : TodoData)
    (hput : put todoData = Except.ok respData)
    (hloc : getItem store (todoKey id) = some t) :
    updateTodo id todoData put store
      = (Except.ok (mergeTodo t todoData).toData,
         setItem store (todoKey id) (mergeTodo t todoData))
    ∧ (mergeTodo t todoData).isLocal = todoData.isLocal.getD t.isLocal
    ∧ (∀ store2, getItem store2 (todoKey id) = none →
        updateTodo id todoData put store2 = (Except.ok respData, store2))
    ∧ (∀ e put2, put2 todoData = Except.error e →
        updateTodo id todoData put2 store
          = (Except.error ("Failed to update todo with ID " ++ toString id), store)) := by
  refine ⟨?_, rfl, ?_, ?_⟩
  · simp only [updateTodo, hput, hloc]
  · intro store2 h2
    simp only [updateTodo, hput, h2]
  · intro e put2 h3
    simp only [updateTodo, h3]

/-- Witness for the amended C6 at a stored local task and the flag-flipping
payload. -/
theorem C6_update_behavior_witness :
    ((fun body => remotePutResp 1001 body) dNotLocal
        = Except.ok { dNotLocal with id := some 1001 }
      ∧ getItem [(todoKey 1001, tLoc)] (todoKey 1001) = some tLoc)
    ∧ (updateTodo 1001 dNotLocal (fun body => remotePutResp 1001 body)
          [(todoKey 1001, tLoc)]
        = (Except.ok (mergeTodo tLoc dNotLocal).toData,
           setItem [(todoKey 1001, tLoc)] (todoKey 1001) (mergeTodo tLoc dNotLocal))
    ∧ (mergeTodo tLoc dNotLocal).isLocal = dNotLocal.isLocal.getD tLoc.isLocal
    ∧ (∀ store2, getItem store2 (todoKey 1001) = none →
        updateTodo 1001 dNotLocal (fun body => remotePutResp 1001 body) store2
          = (Except.ok { dNotLocal with id := some 1001 }, store2))
    ∧ (∀ e put2, put2 dNotLocal = Except.error e →
        updateTodo 1001 dNotLocal put2 [(todoKey 1001, tLoc)]
          = (Except.error ("Failed to update todo with ID " ++ toString 1001),
             [(todoKey 1001, tLoc)]))) :=
  ⟨⟨rfl, rfl⟩,
    C6_update_behavior 1001 dNotLocal [(todoKey 1001, tLoc)] tLoc
      (fun body => remotePutResp 1001 body) { dNotLocal with id := some 1001 }
      rfl rfl⟩

/-! ## Update of a remote-origin task and refetch (C8) -/

/-- A remote-origin task as stored on the server. -/
def tServer : Todo :=
  { id := 1, title := "delectus aut autem", completed := false, userId := 1,
    isLocal := false }

/-- The toggle payload TodoDetail sends for `tServer`: the spread of the
fetched task with the completion flag negated. -/
def dToggle : TodoData :=
  { id := some 1, title := some "delectus aut autem", completed := some true,
    userId := some 1 }

/-- C8 as stated is false: after toggling `tServer`'s flag through
`updateTodo` (no local entry, PUT echoes), the next `getTodoById` returns the
server's stored task with the original flag `false`, not the updated `true`. -/
theorem C8_counterexample :
    (updateTodo 1 dToggle (fun body => remotePutResp 1 body) []).1
      = Except.ok { dToggle with id := some 1 }
    ∧ dToggle.completed = some true
    ∧ getTodoById (remoteGetById { todos := [tServer] } 1) 1 = Except.ok tServer
    ∧ tServer.completed = false := ⟨rfl, rfl, rfl, rfl⟩

/-- C8 (amended): for a remote-origin task (no local entry), updating its
completion flag returns the PUT echo carrying the updated flag, but the
remote state is unchanged by the simulated write, so the next fetch-one
returns the task exactly as stored on the server — which differs from the
toggled task. -/
theorem C8_update_not_reflected (r : RemoteState) (t : Todo) (store : LocalStore)
    (todoData : TodoData)
    (hfind : r.todos.find? (fun x => x.id == t.id) = some t)
    (hnl : getItem store (todoKey t.id) = none)
    (hflag : todoData.completed = some (!t.completed)) :
    (updateTodo t.id todoData (fun body => remotePutResp t.id body) store).1
      = Except.ok { todoData with id := some t.id }
    ∧ ({ todoData with id := some t.id } : TodoData).completed = some (!t.completed)
    ∧ getTodoById (remoteGetById r t.id) t.id = Except.ok t
    ∧ (Except.ok t : Except String Todo)
        ≠ Except.ok { t with completed := !t.completed } := by
  refine ⟨?_, ?_, ?_, ?_⟩
  · simp only [updateTodo, remotePutResp, hnl]
  · simp [hflag]
  · simp only [getTodoById, remoteGetById, hfind]
  · intro h
    have h2 : t = { t with completed := !t.completed } := by
      injection h
    have h3 := congrArg Todo.completed h2
    simp at h3

/-- Witness for the amended C8 at the one-task server and the toggle
payload. -/
theorem C8_update_not_reflected_witness :
    ((RemoteState.mk [tServer]).todos.find? (fun x => x.id == tServer.id)
        = some tServer
      ∧ getItem [] (todoKey tServer.id) = none
      ∧ dToggle.completed = some (!tServer.completed))
    ∧ ((updateTodo tServer.id dToggle
          (fun body => remotePutResp tServer.id body) []).1
        = Except.ok { dToggle with id := some tServer.id }
    ∧ ({ dToggle with id := some tServer.id } : TodoData).completed
        = some (!tServer.completed)
    ∧ getTodoById (remoteGetById (RemoteState.mk [tServer]) tServer.id) tServer.id
        = Except.ok tServer
    ∧ (Except.ok tServer : Except String Todo)
        ≠ Except.ok { tServer with completed := !tServer.completed }) :=
  ⟨⟨rfl, rfl, rfl⟩,
    C8_update_not_reflected (RemoteState.mk [tServer]) tServer [] dToggle
      rfl rfl rfl⟩

/-! ## Create result fields (C10) -/

/-- C10: against the spec-modelled remote, the created task has the generated
timestamp as identifier (overriding the server-assigned one), the title from
the input, completion `false`, owning user `1`, and the local-origin flag
set; and the result depends only on the input's title field — any `id`,
`completed`, `userId` or `isLocal` supplied in the input, and the
server-assigned identifier, are ignored. -/
theorem C10_create_result (todoData todoData2 : TodoData)
    (serverId serverId2 now : Nat) (store : LocalStore) (s : String)
    (ht : todoData.title = some s) (ht2 : todoData2.title = todoData.title) :
    createTodoJP todoData serverId now store
      = (Except.ok
          ({ id := now, title := s, completed := false, userId := 1,
             isLocal := true } : Todo),
         setItem store (todoKey now)
           { id := now, title := s, completed := false, userId := 1, isLocal := true })
    ∧ createTodoJP todoData2 serverId2 now store
        = createTodoJP todoData serverId now store := by
  constructor
  · simp only [createTodoJP, createTodo, remotePostResp, mkLocalTodo, ht, Option.getD_some]
  · simp only [createTodoJP, createTodo, remotePostResp, mkLocalTodo, ht2]

/-- A create input carrying junk `id`, `completed`, `userId` and `isLocal`
fields besides its title. -/
def dJunk : TodoData :=
  { id := some 7, title := some "buy milk", completed := some true,
    userId := some 42, isLocal := some false }

/-- Witness for C10: the junk-laden input and the plain input produce the
same task, with only the title taken from the input. -/
theorem C10_create_result_witness :
    (dJunk.title = some "buy milk" ∧ dMilk.title = dJunk.title)
    ∧ (createTodoJP dJunk 201 1001 []
        = (Except.ok
            ({ id := 1001, title := "buy milk", completed := false,
               userId := 1, isLocal := true } : Todo),
           setItem [] (todoKey 1001)
             { id := 1001, title := "buy milk", completed := false, userId := 1,
               isLocal := true })
    ∧ createTodoJP dMilk 202 1001 [] = createTodoJP dJunk 201 1001 []) :=
  ⟨⟨rfl, rfl⟩, C10_create_result dJunk dMilk 201 202 1001 [] "buy milk" rfl rfl⟩

/-! ## Identifier uniqueness (C9)

The code writes each task only under the key `todo-<its own id>`, so a store
reachable by the app satisfies `wfStore`.  Identifier uniqueness of the
merged collection additionally needs the spec's environment assumptions: the
remote identifiers are unique, and "a remote task and a local task never
share an identifier". -/

/-- Store well-formedness: keys are unique and every entry sits under
`todo-<its own id>`. -/
def wfStore (store : LocalStore) : Prop :=
  (store.map Prod.fst).Nodup ∧ ∀ p ∈ store, p.1 = todoKey p.2.id

lemma wfStore_ids_nodup {store : LocalStore} (h : wfStore store) :
    (store.map (fun p => p.2.id)).Nodup := by
  have hkeys : store.map Prod.fst = (store.map (fun p => p.2.id)).map todoKey := by
    rw [List.map_map]
    exact List.map_congr_left (fun p hp => h.2 p hp)
  have h2 : ((store.map (fun p => p.2.id)).map todoKey).Nodup := hkeys ▸ h.1
  exact h2.of_map

lemma getLocalTodos_sub (store : LocalStore) :
    ∀ t ∈ getLocalTodos (Except.ok store), ∃ p ∈ store, p.2 = t := by
  intro t ht
  simp only [getLocalTodos] at ht
  obtain ⟨p, hp, hpt⟩ := List.mem_map.mp ht
  exact ⟨p, (List.mem_filter.mp hp).1, hpt⟩

lemma getLocalTodos_ids_nodup {store : LocalStore} (h : wfStore store) :
    ((getLocalTodos (Except.ok store)).map Todo.id).Nodup := by
  simp only [getLocalTodos, List.map_map]
  have hsub : ((store.filter (fun p => jsStartsWith p.1 "todo-")).map
        (fun p => p.2.id)).Sublist (store.map (fun p => p.2.id)) :=
    (List.filter_sublist store).map _
  exact (wfStore_ids_nodup h).sublist hsub

lemma isPrefixOf_append_self (l m : List Char) : l.isPrefixOf (l ++ m) = true := by
  induction l with
  | nil => simp [List.isPrefixOf]
  | cons c cs ih => simp [List.isPrefixOf, ih]

lemma jsStartsWith_todoKey (n : Nat) : jsStartsWith (todoKey n) "todo-" = true := by
  have hdata : (todoKey n).data = "todo-".data ++ (toString n).data := rfl
  simp [jsStartsWith, hdata, isPrefixOf_append_self]

lemma mem_setItem_self (store : LocalStore) (key : String) (v : Todo) :
    (key, v) ∈ setItem store key v := by
  unfold setItem
  by_cases h : store.any (fun p => p.1 == key)
  · rw [if_pos h]
    obtain ⟨p, hp, hpk⟩ := List.any_eq_true.mp h
    refine List.mem_map.mpr ⟨p, hp, ?_⟩
    simp [hpk]
  · rw [if_neg h]
    exact List.mem_append.mpr (Or.inr (List.mem_singleton.mpr rfl))

lemma mem_setItem (store : LocalStore) (key : String) (v : Todo) :
    ∀ q ∈ setItem store key v, q = (key, v) ∨ q ∈ store := by
  intro q hq
  unfold setItem at hq
  by_cases h : store.any (fun p => p.1 == key)
  · rw [if_pos h] at hq
    obtain ⟨p, hp, hpq⟩ := List.mem_map.mp hq
    by_cases hk : (p.1 == key) = true
    · left
      rw [← hpq]
      simp [hk]
    · right
      rw [← hpq]
      simpa [hk] using hp
  · rw [if_neg h] at hq
    rcases List.mem_append.mp hq with h1 | h2
    · right
      exact h1
    · left
      exact List.mem_singleton.mp h2

lemma keys_setItem (store : LocalStore) (key : String) (v : Todo) :
    (setItem store key v).map Prod.fst
      = if store.any (fun p => p.1 == key) then store.map Prod.fst
        else store.map Prod.fst ++ [key] := by
  unfold setItem
  by_cases h : store.any (fun p => p.1 == key)
  · rw [if_pos h, if_pos h, List.map_map]
    refine List.map_congr_left (fun p hp => ?_)
    by_cases hk : (p.1 == key) = true
    · simp [hk, (eq_of_beq hk).symm]
    · have hk2 : ¬ p.1 = key := by simpa using hk
      simp [hk2]
  · rw [if_neg h, if_neg h, List.map_append]
    rfl

lemma wfStore_setItem {store : LocalStore} (h : wfStore store) (v : Todo) :
    wfStore (setItem store (todoKey v.id) v) := by
  constructor
  · rw [keys_setItem]
    by_cases hany : store.any (fun p => p.1 == todoKey v.id)
    · rw [if_pos hany]
      exact h.1
    · rw [if_neg hany]
      refine List.Nodup.append h.1 (List.nodup_singleton _) ?_
      intro k hk1 hk2
      rw [List.mem_singleton] at hk2
      subst hk2
      obtain ⟨p, hp, hpk⟩ := List.mem_map.mp hk1
      have hcontra : store.any (fun p => p.1 == todoKey v.id) = true :=
        List.any_eq_true.mpr ⟨p, hp, by simp [hpk]⟩
      exact absurd hcontra (by simpa using hany)
  · intro q hq
    rcases mem_setItem store (todoKey v.id) v q hq with h1 | h2
    · rw [h1]
    · exact h.2 q h2

lemma wfStore_removeItem {store : LocalStore} (h : wfStore store) (key : String) :
    wfStore (removeItem store key) := by
  constructor
  · exact h.1.sublist ((List.filter_sublist store).map Prod.fst)
  · intro p hp
    exact h.2 p (List.mem_filter.mp hp).1

lemma fetchAll_ids_nodup {remoteTodos : List Todo} {store : LocalStore}
    (hr : (remoteTodos.map Todo.id).Nodup) (hwf : wfStore store)
    (hdisj : ∀ p ∈ store, p.2.id ∉ remoteTodos.map Todo.id) :
    ∀ res, fetchAll (Except.ok remoteTodos) (Except.ok store) = Except.ok res →
      (res.map Todo.id).Nodup := by
  intro res hres
  simp only [fetchAll, getAllTodos] at hres
  cases hres
  rw [List.map_append]
  refine List.Nodup.append hr (getLocalTodos_ids_nodup hwf) ?_
  intro a ha1 ha2
  obtain ⟨t, ht, hta⟩ := List.mem_map.mp ha2
  obtain ⟨p, hp, hpt⟩ := getLocalTodos_sub store t ht
  have hnot := hdisj p hp
  rw [hpt, hta] at hnot
  exact hnot ha1

/-- C9: under the spec's environment assumptions (unique remote identifiers,
a well-formed local store whose identifiers do not collide with the remote
ones), the merged fetch-all collection has unique task identifiers, and
create (with a timestamp not colliding with a remote identifier), update (of
the task actually stored under the targeted key) and delete each preserve
these assumptions; moreover creating a task and then fetching all yields a
collection containing the created task exactly once. -/
theorem C9_identifier_uniqueness (remoteTodos : List Todo) (store : LocalStore)
    (hr : (remoteTodos.map Todo.id).Nodup)
    (hwf : wfStore store)
    (hdisj : ∀ p ∈ store, p.2.id ∉ remoteTodos.map Todo.id) :
    (∀ res, fetchAll (Except.ok remoteTodos) (Except.ok store) = Except.ok res →
        (res.map Todo.id).Nodup)
    ∧ (∀ todoData respData now, now ∉ remoteTodos.map Todo.id →
        wfStore (createTodo todoData (fun _ => Except.ok respData) now store).2
        ∧ (∀ p ∈ (createTodo todoData (fun _ => Except.ok respData) now store).2,
            p.2.id ∉ remoteTodos.map Todo.id)
        ∧ (∀ res, fetchAll (Except.ok remoteTodos)
              (Except.ok (createTodo todoData (fun _ => Except.ok respData) now store).2)
              = Except.ok res →
            (res.map Todo.id).Nodup ∧ res.count (mkLocalTodo respData now) = 1))
    ∧ (∀ id todoData t respData,
        getItem store (todoKey id) = some t → t.id = id →
        (todoData.id = none ∨ todoData.id = some id) →
        wfStore (updateTodo id todoData (fun _ => Except.ok respData) store).2
        ∧ (∀ p ∈ (updateTodo id todoData (fun _ => Except.ok respData) store).2,
            p.2.id ∉ remoteTodos.map Todo.id))
    ∧ (∀ id, wfStore (deleteTodo id (Except.ok ()) store).2
        ∧ (∀ p ∈ (deleteTodo id (Except.ok ()) store).2,
            p.2.id ∉ remoteTodos.map Todo.id)) := by
  refine ⟨fetchAll_ids_nodup hr hwf hdisj, ?_, ?_, ?_⟩
  · -- create
    intro todoData respData now hnow
    have hstore2 : (createTodo todoData (fun _ => Except.ok respData) now store).2
        = setItem store (todoKey now) (mkLocalTodo respData now) := rfl
    have hwf2 : wfStore (setItem store (todoKey now) (mkLocalTodo respData now)) :=
      wfStore_setItem hwf (mkLocalTodo respData now)
    have hdisj2 : ∀ p ∈ setItem store (todoKey now) (mkLocalTodo respData now),
        p.2.id ∉ remoteTodos.map Todo.id := by
      intro p hp
      rcases mem_setItem store (todoKey now) (mkLocalTodo respData now) p hp with h1 | h2
      · rw [h1]
        exact hnow
      · exact hdisj p h2
    rw [hstore2]
    refine ⟨hwf2, hdisj2, ?_⟩
    intro res hres
    refine ⟨fetchAll_ids_nodup hr hwf2 hdisj2 res hres, ?_⟩
    simp only [fetchAll, getAllTodos] at hres
    cases hres
    have hmemloc : mkLocalTodo respData now
        ∈ getLocalTodos (Except.ok (setItem store (todoKey now) (mkLocalTodo respData now))) := by
      simp only [getLocalTodos]
      refine List.mem_map.mpr ⟨(todoKey now, mkLocalTodo respData now), ?_, rfl⟩
      refine List.mem_filter.mpr ⟨mem_setItem_self store (todoKey now) (mkLocalTodo respData now), ?_⟩
      exact jsStartsWith_todoKey now
    have hmem : mkLocalTodo respData now
        ∈ remoteTodos ++ getLocalTodos
            (Except.ok (setItem store (todoKey now) (mkLocalTodo respData now))) :=
      List.mem_append.mpr (Or.inr hmemloc)
    have hnodup : (remoteTodos ++ getLocalTodos
        (Except.ok (setItem store (todoKey now) (mkLocalTodo respData now)))).Nodup := by
      have hids := fetchAll_ids_nodup hr hwf2 hdisj2 _ rfl
      exact hids.of_map
    exact List.count_eq_one_of_mem hnodup hmem
  · -- update
    intro id todoData t respData hloc hid hdid
    have hstore3 : (updateTodo id todoData (fun _ => Except.ok respData) store).2
        = setItem store (todoKey id) (mergeTodo t todoData) := by
      simp only [updateTodo, hloc]
    have hmid : (mergeTodo t todoData).id = id := by
      rcases hdid with h1 | h1 <;> simp [mergeTodo, h1, hid]
    have hkey : todoKey id = todoKey (mergeTodo t todoData).id := by rw [hmid]
    have htid : t.id ∉ remoteTodos.map Todo.id := by
      have hsome : ∃ q, store.find? (fun p => p.1 == todoKey id) = some q ∧ q.2 = t := by
        simp only [getItem, Option.map_eq_some'] at hloc
        exact hloc
      obtain ⟨q, hq1, hq2⟩ := hsome
      have hqmem := List.mem_of_find?_eq_some hq1
      have := hdisj q hqmem
      rwa [hq2] at this
    rw [hstore3]
    constructor
    · rw [hkey]
      exact wfStore_setItem hwf (mergeTodo t todoData)
    · intro p hp
      rcases mem_setItem store (todoKey id) (mergeTodo t todoData) p hp with h1 | h2
      · rw [h1]
        simpa [hmid, ← hid] using htid
      · exact hdisj p h2
  · -- delete
    intro id
    have hstore4 : (deleteTodo id (Except.ok ()) store).2 = removeItem store (todoKey id) := rfl
    rw [hstore4]
    refine ⟨wfStore_removeItem hwf (todoKey id), ?_⟩
    intro p hp
    exact hdisj p (List.mem_filter.mp hp).1

/-- Witness for C9 at a one-task remote list and a one-entry local store. -/
theorem C9_identifier_uniqueness_witness :
    (((([tRemote1] : List Todo)).map Todo.id).Nodup
      ∧ wfStore [(todoKey 1001, tLoc)]
      ∧ (∀ p ∈ [(todoKey 1001, tLoc)], p.2.id ∉ ([tRemote1] : List Todo).map Todo.id))
    ∧ ((∀ res, fetchAll (Except.ok [tRemote1]) (Except.ok [(todoKey 1001, tLoc)])
          = Except.ok res → (res.map Todo.id).Nodup)
    ∧ (∀ todoData respData now, now ∉ ([tRemote1] : List Todo).map Todo.id →
        wfStore (createTodo todoData (fun _ => Except.ok respData) now
            [(todoKey 1001, tLoc)]).2
        ∧ (∀ p ∈ (createTodo todoData (fun _ => Except.ok respData) now
            [(todoKey 1001, tLoc)]).2, p.2.id ∉ ([tRemote1] : List Todo).map Todo.id)
        ∧ (∀ res, fetchAll (Except.ok [tRemote1])
              (Except.ok (createTodo todoData (fun _ => Except.ok respData) now
                [(todoKey 1001, tLoc)]).2) = Except.ok res →
            (res.map Todo.id).Nodup ∧ res.count (mkLocalTodo respData now) = 1))
    ∧ (∀ id todoData t respData,
        getItem [(todoKey 1001, tLoc)] (todoKey id) = some t → t.id = id →
        (todoData.id = none ∨ todoData.id = some id) →
        wfStore (updateTodo id todoData (fun _ => Except.ok respData)
            [(todoKey 1001, tLoc)]).2
        ∧ (∀ p ∈ (updateTodo id todoData (fun _ => Except.ok respData)
            [(todoKey 1001, tLoc)]).2, p.2.id ∉ ([tRemote1] : List Todo).map Todo.id))
    ∧ (∀ id, wfStore (deleteTodo id (Except.ok ()) [(todoKey 1001, tLoc)]).2
        ∧ (∀ p ∈ (deleteTodo id (Except.ok ()) [(todoKey 1001, tLoc)]).2,
            p.2.id ∉ ([tRemote1] : List Todo).map Todo.id))) :=
  ⟨⟨by decide, ⟨by decide, by decide⟩, by decide⟩,
    C9_identifier_uniqueness [tRemote1] [(todoKey 1001, tLoc)]
      (by decide) ⟨by decide, by decide⟩ (by decide)⟩

end TodoApp
